import Mathlib

/-!
Shallow embedding of the LlamaStack adapter service (Go) and proofs of its
specified properties.

The embedding covers:
- the upstream client (internal/llamastack/client.go): URL construction,
  status handling, model-list translation, health check;
- the response envelopes (internal/models/types.go);
- the HTTP handlers (internal/handlers/models.go, internal/handlers/health.go);
- configuration loading (internal/config/config.go).

Side effects are made explicit: the current time, the decoded upstream
response and the environment are passed as parameters; control-flow facts
(whether the auth guard ran, whether the upstream was called) are recorded
as instrumentation fields on the handler result.
-/

namespace LlamaAdapter

/-- A Go slice value: either the nil slice (which serialises to JSON null)
or a non-nil slice holding a list of elements. `make([]T, 0, n)` produces a
non-nil empty slice. -/
inductive GoSlice (α : Type) where
  | nilSlice : GoSlice α
  | mk : List α → GoSlice α
deriving DecidableEq

/-- Go `append` on a slice value: appending to the nil slice allocates. -/
def GoSlice.push {α : Type} : GoSlice α → α → GoSlice α
  | .nilSlice, a => .mk [a]
  | .mk xs, a => .mk (xs ++ [a])

/-- The elements held by a slice value (nil holds none). -/
def GoSlice.toList {α : Type} : GoSlice α → List α
  | .nilSlice => []
  | .mk xs => xs

/-- Whether the slice is the nil slice (JSON null). -/
def GoSlice.isNil {α : Type} : GoSlice α → Bool
  | .nilSlice => true
  | .mk _ => false

/-- Go `strings.HasPrefix`: byte-level prefix test, modelled on the
character data of the string. -/
def goHasPre (pre s : String) : Bool :=
  pre.data.isPrefixOf s.data

/-- Go `strings.TrimPrefix s pre`: drops `pre` from the front of `s` when it
is a prefix, otherwise returns `s` unchanged. -/
def goTrimPre (s pre : String) : String :=
  if pre.data.isPrefixOf s.data then String.mk (s.data.drop pre.data.length) else s

/-- Go `s[len(s)-1:]`: the one-character tail slice. `none` models the
runtime panic (index out of range) on the empty string. -/
def goLastChunk (s : String) : Option String :=
  if s.data.length = 0 then none
  else some (String.mk (s.data.drop (s.data.length - 1)))

/-- LlamaStackModel (client.go): one upstream model record. -/
structure LlamaStackModel where
  id : String
  name : String := ""
  description : String := ""
  provider : String := ""
  type_ : String := ""
deriving DecidableEq

/-- openai.Model, restricted to the fields the adapter sets. -/
structure OpenAIModel where
  id : String
  object : String
  created : Int
  ownedBy : String
deriving DecidableEq

/-- The per-record translation inside ListModels (client.go lines 92-99):
identifier copied, object tag "model", creation time stamped now, owner tag
the constant "llamastack". -/
def translateModel (now : Int) (m : LlamaStackModel) : OpenAIModel :=
  { id := m.id, object := "model", created := now, ownedBy := "llamastack" }

/-- The conversion loop of ListModels: `make([]openai.Model, 0, n)` followed
by one `append` per upstream record, in order. -/
def convertModels (now : Int) (ms : List LlamaStackModel) : GoSlice OpenAIModel :=
  ms.foldl (fun acc m => acc.push (translateModel now m)) (GoSlice.mk [])

/-- ModelsResponse (types.go): the OpenAI-compatible envelope for
/v1/models. -/
structure ModelsResponse where
  object : String
  data : GoSlice OpenAIModel
deriving DecidableEq

/-- NewModelsResponse (types.go lines 25-30). -/
def NewModelsResponse (models : GoSlice OpenAIModel) : ModelsResponse :=
  { object := "list", data := models }

/-- The inner error object of an ErrorResponse (types.go). -/
structure ErrorInfo where
  message : String
  type_ : String
deriving DecidableEq

/-- ErrorResponse (types.go): the error envelope. -/
structure ErrorResponse where
  error : ErrorInfo
deriving DecidableEq

/-- NewErrorResponse (types.go). -/
def NewErrorResponse (message errorType : String) : ErrorResponse :=
  { error := { message := message, type_ := errorType } }

/-- The failures ListModels can return (client.go): transport failure,
non-OK upstream status (carrying the status code and raw body), or a JSON
decode failure. -/
inductive ListModelsErr where
  | requestFailed (msg : String)
  | upstreamStatus (status : Nat) (body : String)
  | decodeFailed (msg : String)
deriving DecidableEq

/-- An upstream HTTP response as ListModels sees it: the status code, the
raw body text, and the result of JSON-decoding the body into a
LlamaStackResponse (`none` when the body is malformed). -/
structure UpstreamHttpResponse where
  status : Nat
  raw : String
  decoded : Option (List LlamaStackModel)
deriving DecidableEq

/-- ListModels (client.go lines 80-100), from the point where an upstream
response has been received: reject any status other than 200 (`http.StatusOK`)
with an error carrying the status and body; reject a malformed body; otherwise
convert the decoded records. The current time is a parameter. -/
def listModels (now : Int) (resp : UpstreamHttpResponse) :
    Except ListModelsErr (GoSlice OpenAIModel) :=
  if resp.status ≠ 200 then
    .error (.upstreamStatus resp.status resp.raw)
  else
    match resp.decoded with
    | none => .error (.decodeFailed "failed to decode LlamaStack response")
    | some ms => .ok (convertModels now ms)

/-- Build the URL for ListModels (client.go lines 57-61): append "/v1/models",
but when the endpoint's last character is "/" append "v1/models" instead.
`none` models the panic on an empty endpoint. -/
def buildModelsURL (endpoint : String) : Option String :=
  match goLastChunk endpoint with
  | none => none
  | some lastChunk =>
      if lastChunk = "/" then some (endpoint ++ "v1/models")
      else some (endpoint ++ "/v1/models")

/-- Build the URL for Health (client.go lines 108-111), same slash rule with
path "health". -/
def buildHealthURL (endpoint : String) : Option String :=
  match goLastChunk endpoint with
  | none => none
  | some lastChunk =>
      if lastChunk = "/" then some (endpoint ++ "health")
      else some (endpoint ++ "/health")

/-- A string with any single trailing "/" removed; used to state the
normal form of the constructed URLs. -/
def stripTrailingSlash (s : String) : String :=
  if s.data.getLast? = some '/' then String.mk s.data.dropLast else s

/-- The distinct auth failures of validateAuth (models.go lines 71-92),
one per check in order. -/
inductive AuthError where
  | missingHeader
  | malformedHeader
  | emptyToken
deriving DecidableEq

/-- validateAuth (models.go lines 71-92). The Authorization header value is
a string; an absent header reads as the empty string (gin's GetHeader).
Checks in order: header non-empty, case-sensitive "Bearer " prefix, token
non-empty after trimming the prefix; `none` means accepted. -/
def validateAuth (authHeader : String) : Option AuthError :=
  if authHeader = "" then some .missingHeader
  else if !(goHasPre "Bearer " authHeader) then some .malformedHeader
  else if goTrimPre authHeader "Bearer " = "" then some .emptyToken
  else none

/-- The JSON body a /v1/models reply carries: either the models envelope or
an error envelope. -/
inductive ModelsBody where
  | modelsList (r : ModelsResponse)
  | errorBody (e : ErrorResponse)
deriving DecidableEq

/-- The observable outcome of HandleListModels: HTTP status, body, plus two
instrumentation facts recording control flow — whether validateAuth was
invoked and whether the upstream ListModels call was made. -/
structure ModelsReply where
  status : Nat
  body : ModelsBody
  authChecked : Bool
  upstreamCalled : Bool
deriving DecidableEq

/-- The tail of HandleListModels after the auth gate (models.go lines 46-68):
call the upstream, map any error to a fixed 500 internal_error envelope,
wrap success in NewModelsResponse with status 200. The upstream call's
result is a parameter. -/
def modelsAfterAuth (authChecked : Bool)
    (upstream : Except ListModelsErr (GoSlice OpenAIModel)) : ModelsReply :=
  match upstream with
  | .error _ =>
      { status := 500
        body := .errorBody (NewErrorResponse
          "Failed to retrieve models from external service" "internal_error")
        authChecked := authChecked
        upstreamCalled := true }
  | .ok models =>
      { status := 200
        body := .modelsList (NewModelsResponse models)
        authChecked := authChecked
        upstreamCalled := true }

/-- HandleListModels (models.go lines 30-68): when auth is enabled, run
validateAuth and on failure reply 401 authentication_error without calling
the upstream; otherwise proceed to the upstream call. -/
def HandleListModels (enableAuth : Bool) (authHeader : String)
    (upstream : Except ListModelsErr (GoSlice OpenAIModel)) : ModelsReply :=
  if enableAuth then
    match validateAuth authHeader with
    | some _ =>
        { status := 401
          body := .errorBody (NewErrorResponse
            "Authentication required" "authentication_error")
          authChecked := true
          upstreamCalled := false }
    | none => modelsAfterAuth true upstream
  else modelsAfterAuth false upstream

/-- The outcome of the upstream /health exchange as Client.Health sees it:
transport failure, or a response with a status code. -/
inductive HealthOutcome where
  | transportError (msg : String)
  | response (status : Nat)
deriving DecidableEq

/-- Client.Health (client.go lines 122-132), from the outbound call on:
success (`none`) for any 2xx status, otherwise an error message. -/
def clientHealth (outcome : HealthOutcome) : Option String :=
  match outcome with
  | .transportError msg => some ("health check failed: " ++ msg)
  | .response s =>
      if 200 ≤ s ∧ s < 300 then none
      else some ("health check returned status " ++ toString s)

/-- HealthResponse (health.go): the deep-health snapshot body. The services
map has a single key, so it is embedded as an association list. -/
structure HealthResponse where
  status : String
  timestamp : Int
  services : List (String × String)
  version : String
  uptime : String
deriving DecidableEq

/-- The observable outcome of HandleHealth: HTTP status and snapshot body. -/
structure HealthReply where
  httpStatus : Nat
  body : HealthResponse
deriving DecidableEq

/-- HandleHealth (health.go lines 36-60): evaluate the upstream health
check; on failure reply 503 with status unhealthy and llamastack down, on
success 200 with status healthy and llamastack up. Time-derived fields are
parameters. -/
def HandleHealth (now : Int) (uptime : String) (outcome : HealthOutcome) :
    HealthReply :=
  match clientHealth outcome with
  | some _ =>
      { httpStatus := 503
        body := { status := "unhealthy", timestamp := now
                  services := [("llamastack", "down")]
                  version := "1.0.0", uptime := uptime } }
  | none =>
      { httpStatus := 200
        body := { status := "healthy", timestamp := now
                  services := [("llamastack", "up")]
                  version := "1.0.0", uptime := uptime } }

/-- The terse body of the /ready endpoint (health.go lines 63-80). -/
structure ReadyBody where
  ready : Bool
  reason : Option String
deriving DecidableEq

/-- HandleReadiness (health.go lines 63-80): same upstream check, but a 503
{ready:false, reason} / 200 {ready:true} reply. -/
def HandleReadiness (outcome : HealthOutcome) : Nat × ReadyBody :=
  match clientHealth outcome with
  | some _ => (503, { ready := false, reason := some "llamastack_unavailable" })
  | none => (200, { ready := true, reason := none })

/-- The body of the /live endpoint (health.go lines 83-88). -/
structure LiveBody where
  alive : Bool
  timestamp : Int
deriving DecidableEq

/-- HandleLiveness (health.go lines 83-88): unconditionally 200 with
alive:true and the current time; the handler takes no upstream input. -/
def HandleLiveness (now : Int) : Nat × LiveBody :=
  (200, { alive := true, timestamp := now })

/-- The JSON field names of the deep-health snapshot (struct tags in
health.go). -/
def healthBodyFields : List String :=
  ["status", "timestamp", "services", "version", "uptime"]

/-- The JSON field names of the readiness reply (gin.H keys in health.go). -/
def readyBodyFields : List String :=
  ["ready", "reason"]

/-- Config (config.go). -/
structure Config where
  address : String
  port : String
  llamaStackEndpoint : String
  llamaStackAPIKey : String
  enableAuth : Bool
  logLevel : String
  logJSON : Bool
deriving DecidableEq

/-- getEnvOrDefault (config.go): os.Getenv yields "" for an unset variable,
and the default is used exactly when the value is empty. The environment is
a parameter. -/
def getEnvOrDefault (env : String → String) (key defaultValue : String) : String :=
  if env key ≠ "" then env key else defaultValue

/-- The Config value LoadConfig assembles from the environment before
validation (config.go lines 26-34). -/
def configFromEnv (env : String → String) : Config :=
  { address := getEnvOrDefault env "ADAPTER_ADDRESS" "0.0.0.0"
    port := getEnvOrDefault env "ADAPTER_PORT" "8080"
    llamaStackEndpoint := getEnvOrDefault env "LLAMASTACK_ENDPOINT" ""
    llamaStackAPIKey := getEnvOrDefault env "LLAMASTACK_API_KEY" ""
    enableAuth := getEnvOrDefault env "ENABLE_AUTH" "true" == "true"
    logLevel := getEnvOrDefault env "LOG_LEVEL" "info"
    logJSON := getEnvOrDefault env "LOG_JSON" "false" == "true" }

/-- LoadConfig (config.go lines 25-42): assemble the Config from the
environment, then reject an empty LlamaStack endpoint. -/
def LoadConfig (env : String → String) : Except String Config :=
  if (configFromEnv env).llamaStackEndpoint = "" then
    .error "LLAMASTACK_ENDPOINT is required"
  else .ok (configFromEnv env)

/-! ### Helper lemmas -/

/-- The conversion loop is the elementwise translation, for any accumulator. -/
theorem convertModels_loop (now : Int) (ms : List LlamaStackModel)
    (acc : List OpenAIModel) :
    ms.foldl (fun acc m => acc.push (translateModel now m)) (GoSlice.mk acc) =
      GoSlice.mk (acc ++ ms.map (translateModel now)) := by
  induction ms generalizing acc with
  | nil => simp
  | cons m rest ih =>
      rw [List.foldl_cons,
        show (GoSlice.mk acc).push (translateModel now m) =
          GoSlice.mk (acc ++ [translateModel now m]) from rfl,
        ih]
      simp

/-- The conversion loop equals a non-nil slice holding the mapped list. -/
theorem convertModels_eq_map (now : Int) (ms : List LlamaStackModel) :
    convertModels now ms = GoSlice.mk (ms.map (translateModel now)) := by
  simpa using convertModels_loop now ms []

/-- Dropping all but the last element of a non-empty list leaves exactly the
last element. -/
theorem drop_length_pred (l : List Char) (h : l ≠ []) :
    l.drop (l.length - 1) = [l.getLast h] := by
  conv_lhs => rw [← List.dropLast_append_getLast h]
  exact List.drop_left' (by simp)

/-- A string is non-empty iff its character data is. -/
theorem string_ne_empty_iff (s : String) : s ≠ "" ↔ s.data ≠ [] := by
  constructor
  · intro hs hd
    exact hs (String.ext hd)
  · intro hd hs
    exact hd (congrArg String.data hs)

/-- goLastChunk of a non-empty string is its last character as a string. -/
theorem goLastChunk_eq_getLast (s : String) (h : s.data ≠ []) :
    goLastChunk s = some (String.mk [s.data.getLast h]) := by
  unfold goLastChunk
  rw [if_neg (fun hc => h (List.eq_nil_of_length_eq_zero hc)),
    drop_length_pred s.data h]

/-- Joining a slash-or-not base with a path under the code's last-character
test equals the slash-stripped base, one "/", and the path. -/
theorem goJoin_eq (b p : String) (hd : b.data ≠ []) :
    (if String.mk [b.data.getLast hd] = "/" then some (b ++ p)
      else some (b ++ ("/" ++ p))) =
      some (stripTrailingSlash b ++ ("/" ++ p)) := by
  by_cases hc : b.data.getLast hd = '/'
  · rw [if_pos (by rw [hc])]
    have hstrip : stripTrailingSlash b = String.mk b.data.dropLast := by
      rw [stripTrailingSlash,
        if_pos (by rw [List.getLast?_eq_getLast b.data hd, hc])]
    rw [hstrip]
    congr 1
    apply String.ext
    show b.data ++ p.data = b.data.dropLast ++ ('/' :: p.data)
    conv_lhs => rw [← List.dropLast_append_getLast hd, hc]
    simp
  · have hcs : ¬ (String.mk [b.data.getLast hd] = "/") := by
      intro hcon
      exact hc (by simpa using congrArg String.data hcon)
    rw [if_neg hcs]
    have hq : b.data.getLast? ≠ some '/' := by
      rw [List.getLast?_eq_getLast b.data hd]
      simp [hc]
    rw [stripTrailingSlash, if_neg hq]

/-- Normal form of the ListModels URL for a non-empty endpoint. -/
theorem buildModelsURL_eq (b : String) (hb : b ≠ "") :
    buildModelsURL b = some (stripTrailingSlash b ++ "/v1/models") := by
  have hd : b.data ≠ [] := (string_ne_empty_iff b).mp hb
  rw [buildModelsURL, goLastChunk_eq_getLast b hd]
  exact goJoin_eq b "v1/models" hd

/-- Normal form of the Health URL for a non-empty endpoint. -/
theorem buildHealthURL_eq (b : String) (hb : b ≠ "") :
    buildHealthURL b = some (stripTrailingSlash b ++ "/health") := by
  have hd : b.data ≠ [] := (string_ne_empty_iff b).mp hb
  rw [buildHealthURL, goLastChunk_eq_getLast b hd]
  exact goJoin_eq b "health" hd

/-! ### Claim theorems -/

/-- C1: for every upstream model list of length N (including N = 0), the
translated models envelope's data sequence has length N, preserves the
input order (it is exactly the elementwise translation), and is never the
nil slice, so an empty upstream list yields an empty sequence rather than
an omitted field. -/
theorem envelope_length_order_nonnull (now : Int) (ms : List LlamaStackModel) :
    (NewModelsResponse (convertModels now ms)).data.toList.length = ms.length ∧
    (NewModelsResponse (convertModels now ms)).data.isNil = false ∧
    (NewModelsResponse (convertModels now ms)).data.toList =
      ms.map (translateModel now) := by
  refine ⟨?_, ?_, ?_⟩ <;>
    simp [NewModelsResponse, convertModels_eq_map, GoSlice.toList, GoSlice.isNil]

/-- C2: the translated record at every index has the identifier copied
verbatim from the upstream record at the same index, object tag "model",
creation timestamp the time at translation, and owner tag the constant
"llamastack"; the translation ignores every upstream field other than the
identifier, in particular the provider field. -/
theorem translation_record_fields (now : Int) (ms : List LlamaStackModel)
    (i : Nat) (h : i < ms.length) :
    (∃ hm : i < (convertModels now ms).toList.length,
      (convertModels now ms).toList.get ⟨i, hm⟩ =
        { id := (ms.get ⟨i, h⟩).id, object := "model", created := now,
          ownedBy := "llamastack" }) ∧
    ∀ m₁ m₂ : LlamaStackModel, m₁.id = m₂.id →
      translateModel now m₁ = translateModel now m₂ := by
  constructor
  · have hm : i < (convertModels now ms).toList.length := by
      simpa [convertModels_eq_map, GoSlice.toList] using h
    refine ⟨hm, ?_⟩
    simp [convertModels_eq_map, GoSlice.toList, translateModel,
      List.get_eq_getElem, List.getElem_map]
  · intro m₁ m₂ hid
    simp [translateModel, hid]

/-- Witness for C2 at a concrete record list and index 0. -/
theorem translation_record_fields_witness :
    ∃ hm : 0 < (convertModels 7 [⟨"llama-3.1-8b", "n", "d", "prov", "t"⟩]).toList.length,
      (convertModels 7 [⟨"llama-3.1-8b", "n", "d", "prov", "t"⟩]).toList.get ⟨0, hm⟩ =
        { id := "llama-3.1-8b", object := "model", created := 7,
          ownedBy := "llamastack" } :=
  (translation_record_fields 7 [⟨"llama-3.1-8b", "n", "d", "prov", "t"⟩] 0
    (by decide)).1

/-- C3 counterexample: 201 is a 2xx status, and on a 201 response with a
well-formed body listModels nevertheless fails with an upstream-status
error (the code accepts only status 200 exactly). -/
theorem listModels_2xx_status_error :
    (200 ≤ 201 ∧ 201 < 300) ∧
    listModels 0 { status := 201, raw := "", decoded := some [] } =
      .error (.upstreamStatus 201 "") :=
  ⟨by decide, rfl⟩

/-- C3 amended: listModels fails with an upstream-status error, carrying
the returned status code and body, exactly when the upstream status is not
200 (http.StatusOK). -/
theorem listModels_status_error_iff (now : Int) (resp : UpstreamHttpResponse) :
    listModels now resp = .error (.upstreamStatus resp.status resp.raw) ↔
      resp.status ≠ 200 := by
  unfold listModels
  by_cases h : resp.status = 200
  · simp only [h, ne_eq, not_true_eq_false, if_false, ite_false]
    cases resp.decoded <;> simp
  · simp [h]

/-- C9: for every current time, the liveness handler replies HTTP 200 with
alive:true and the timestamp; its definition takes no upstream input, so
the reply is independent of upstream reachability. -/
theorem liveness_unconditional (now : Int) :
    (HandleLiveness now).1 = 200 ∧ (HandleLiveness now).2.alive = true ∧
    (HandleLiveness now).2.timestamp = now := by
  refine ⟨rfl, rfl, rfl⟩

/-- C4: with auth enforced, every request whose Authorization header fails
validation gets HTTP 401 with the authentication_error envelope and no
upstream call is made; with auth disabled, validateAuth is never invoked
and the reply is never 401. -/
theorem auth_gate (authHeader : String)
    (upstream : Except ListModelsErr (GoSlice OpenAIModel)) :
    (∀ e, validateAuth authHeader = some e →
      (HandleListModels true authHeader upstream).status = 401 ∧
      (HandleListModels true authHeader upstream).body =
        .errorBody (NewErrorResponse "Authentication required"
          "authentication_error") ∧
      (HandleListModels true authHeader upstream).upstreamCalled = false) ∧
    (HandleListModels false authHeader upstream).authChecked = false ∧
    (HandleListModels false authHeader upstream).status ≠ 401 := by
  refine ⟨fun e he => ?_, ?_, ?_⟩
  · simp [HandleListModels, he]
  · cases upstream <;> simp [HandleListModels, modelsAfterAuth]
  · cases upstream <;> simp [HandleListModels, modelsAfterAuth]

/-- Witness for C4: a missing header with auth enforced yields 401, while
the same request with auth disabled does not. -/
theorem auth_gate_witness :
    (HandleListModels true "" (.ok (GoSlice.mk []))).status = 401 ∧
    (HandleListModels true "" (.ok (GoSlice.mk []))).upstreamCalled = false ∧
    (HandleListModels false "" (.ok (GoSlice.mk []))).status ≠ 401 :=
  ⟨((auth_gate "" (.ok (GoSlice.mk []))).1 .missingHeader (by decide)).1,
   ((auth_gate "" (.ok (GoSlice.mk []))).1 .missingHeader (by decide)).2.2,
   (auth_gate "" (.ok (GoSlice.mk []))).2.2⟩

/-- C5: the auth guard checks, in order, header presence, the
case-sensitive "Bearer " prefix, and non-emptiness of the token after the
prefix is removed; each failing check yields its distinct error kind, and
any header with a non-empty token after the prefix is accepted. -/
theorem validateAuth_cases :
    validateAuth "" = some .missingHeader ∧
    (∀ s : String, s ≠ "" → goHasPre "Bearer " s = false →
      validateAuth s = some .malformedHeader) ∧
    validateAuth "Bearer " = some .emptyToken ∧
    (∀ t : String, t ≠ "" → validateAuth ("Bearer " ++ t) = none) := by
  refine ⟨by decide, fun s hs hp => ?_, by decide, fun t ht => ?_⟩
  · simp [validateAuth, hs, hp]
  · have hne : ("Bearer " ++ t) ≠ "" := by
      rw [string_ne_empty_iff, String.data_append]
      intro hcon
      exact absurd (List.append_eq_nil.mp hcon).2 ((string_ne_empty_iff t).mp ht)
    have hpre : ("Bearer ".data.isPrefixOf ("Bearer " ++ t).data) = true := by
      simp [List.isPrefixOf_iff_prefix]
    have htrim : goTrimPre ("Bearer " ++ t) "Bearer " = t := by
      rw [goTrimPre, if_pos hpre, String.data_append, List.drop_left]
    rw [validateAuth, if_neg hne]
    rw [show goHasPre "Bearer " ("Bearer " ++ t) = true from hpre]
    simp [htrim, ht]

/-- Witness for C5: a lower-case bearer prefix is rejected as malformed and
a well-formed non-empty token is accepted. -/
theorem validateAuth_cases_witness :
    validateAuth "bearer x" = some .malformedHeader ∧
    validateAuth ("Bearer " ++ "tok") = none :=
  ⟨validateAuth_cases.2.1 "bearer x" (by decide) (by decide),
   validateAuth_cases.2.2.2 "tok" (by decide)⟩

/-- C8: once past the auth gate, every upstream error produces HTTP 500
with the same fixed internal_error envelope; the whole reply is identical
for any two upstream errors, so no upstream body or internal error string
reaches the caller. -/
theorem upstream_error_fixed_envelope (enableAuth : Bool) (authHeader : String)
    (e e2 : ListModelsErr)
    (hauth : enableAuth = false ∨ validateAuth authHeader = none) :
    (HandleListModels enableAuth authHeader (.error e)).status = 500 ∧
    (HandleListModels enableAuth authHeader (.error e)).body =
      .errorBody (NewErrorResponse
        "Failed to retrieve models from external service" "internal_error") ∧
    HandleListModels enableAuth authHeader (.error e) =
      HandleListModels enableAuth authHeader (.error e2) := by
  rcases hauth with h | h
  · subst h
    simp [HandleListModels, modelsAfterAuth]
  · cases enableAuth <;> simp [HandleListModels, h, modelsAfterAuth]

/-- Witness for C8: a transport failure and an upstream 502 produce
identical 500 replies. -/
theorem upstream_error_fixed_envelope_witness :
    (HandleListModels false "" (.error (.requestFailed "dns"))).status = 500 ∧
    HandleListModels false "" (.error (.requestFailed "dns")) =
      HandleListModels false "" (.error (.upstreamStatus 502 "bad gateway")) :=
  ⟨(upstream_error_fixed_envelope false "" (.requestFailed "dns")
      (.upstreamStatus 502 "bad gateway") (Or.inl rfl)).1,
   (upstream_error_fixed_envelope false "" (.requestFailed "dns")
      (.upstreamStatus 502 "bad gateway") (Or.inl rfl)).2.2⟩

/-- C6: for every non-empty base URL, the list-models URL and the health
URL equal the slash-stripped base joined to the path by exactly one "/"
(so never a doubled or missing slash at the join), and for a base without
a trailing slash, adding one yields the identical URL. -/
theorem url_slash_normalization (b : String) (hb : b ≠ "") :
    buildModelsURL b = some (stripTrailingSlash b ++ "/v1/models") ∧
    buildHealthURL b = some (stripTrailingSlash b ++ "/health") ∧
    (b.data.getLast? ≠ some '/' →
      buildModelsURL (b ++ "/") = buildModelsURL b ∧
      buildHealthURL (b ++ "/") = buildHealthURL b) := by
  refine ⟨buildModelsURL_eq b hb, buildHealthURL_eq b hb, fun hq => ?_⟩
  have hbs : (b ++ "/") ≠ "" := by
    rw [string_ne_empty_iff, String.data_append]
    intro hcon
    exact absurd (List.append_eq_nil.mp hcon).2 (by simp)
  have hdata : (b ++ "/").data = b.data ++ ['/'] := by
    rw [String.data_append]
  have hstrip2 : stripTrailingSlash (b ++ "/") = b := by
    rw [stripTrailingSlash, if_pos (by rw [hdata, List.getLast?_concat])]
    apply String.ext
    show ((b ++ "/").data).dropLast = b.data
    rw [hdata, List.dropLast_concat]
  have hstrip1 : stripTrailingSlash b = b := by
    rw [stripTrailingSlash, if_neg hq]
  constructor
  · rw [buildModelsURL_eq (b ++ "/") hbs, buildModelsURL_eq b hb, hstrip1,
      hstrip2]
  · rw [buildHealthURL_eq (b ++ "/") hbs, buildHealthURL_eq b hb, hstrip1,
      hstrip2]

/-- Witness for C6 at a concrete base URL without a trailing slash. -/
theorem url_slash_normalization_witness :
    buildModelsURL "http://u" = some "http://u/v1/models" ∧
    buildModelsURL ("http://u" ++ "/") = buildModelsURL "http://u" ∧
    buildHealthURL ("http://u" ++ "/") = buildHealthURL "http://u" :=
  ⟨(url_slash_normalization "http://u" (by decide)).1,
   ((url_slash_normalization "http://u" (by decide)).2.2 (by decide)).1,
   ((url_slash_normalization "http://u" (by decide)).2.2 (by decide)).2⟩

/-- C7: the deep-health and readiness handlers both reply 503 when the
upstream health check fails and 200 when it succeeds; the upstream check
succeeds exactly on a 2xx status; and the two reply bodies have different
shapes (different JSON field sets). -/
theorem health_ready_status (now : Int) (uptime : String) (o : HealthOutcome)
    (s : Nat) :
    ((clientHealth o).isSome = true →
      (HandleHealth now uptime o).httpStatus = 503 ∧
      (HandleReadiness o).1 = 503) ∧
    (clientHealth o = none →
      (HandleHealth now uptime o).httpStatus = 200 ∧
      (HandleReadiness o).1 = 200) ∧
    (clientHealth (.response s) = none ↔ 200 ≤ s ∧ s < 300) ∧
    healthBodyFields ≠ readyBodyFields := by
  refine ⟨fun hf => ?_, fun hs => ?_, ?_, by decide⟩
  · rcases ho : clientHealth o with _ | msg
    · rw [ho] at hf
      cases hf
    · constructor
      · rw [HandleHealth, ho]
      · rw [HandleReadiness, ho]
  · constructor
    · rw [HandleHealth, hs]
    · rw [HandleReadiness, hs]
  · rw [clientHealth]
    by_cases h2 : 200 ≤ s ∧ s < 300
    · simp [h2]
    · simp [h2]

/-- Witness for C7: a transport failure yields 503 on both probes and a
204 upstream status yields 200 on both. -/
theorem health_ready_status_witness :
    (HandleHealth 0 "1s" (.transportError "no route")).httpStatus = 503 ∧
    (HandleReadiness (.transportError "no route")).1 = 503 ∧
    (HandleHealth 0 "1s" (.response 204)).httpStatus = 200 ∧
    (HandleReadiness (.response 204)).1 = 200 :=
  ⟨((health_ready_status 0 "1s" (.transportError "no route") 0).1 rfl).1,
   ((health_ready_status 0 "1s" (.transportError "no route") 0).1 rfl).2,
   ((health_ready_status 0 "1s" (.response 204) 0).2.1 (by decide)).1,
   ((health_ready_status 0 "1s" (.response 204) 0).2.1 (by decide)).2⟩

/-- C10: the last-character slice is out of bounds on the empty endpoint
(modelled as `none`); for every non-empty endpoint both URL constructions
succeed; and configuration loading only ever returns a Config whose
endpoint is non-empty, so the slice is in bounds at runtime. -/
theorem url_slice_safety (e : String) (he : e ≠ "") (env : String → String)
    (cfg : Config) :
    goLastChunk "" = none ∧
    (buildModelsURL e).isSome = true ∧
    (buildHealthURL e).isSome = true ∧
    (LoadConfig env = .ok cfg → cfg.llamaStackEndpoint ≠ "") := by
  refine ⟨rfl, ?_, ?_, fun h => ?_⟩
  · rw [buildModelsURL_eq e he]
    rfl
  · rw [buildHealthURL_eq e he]
    rfl
  · rw [LoadConfig] at h
    by_cases hemp : (configFromEnv env).llamaStackEndpoint = ""
    · rw [if_pos hemp] at h
      cases h
    · rw [if_neg hemp] at h
      cases h
      exact hemp

/-- Witness for C10 at a concrete endpoint and an environment without the
endpoint variable set. -/
theorem url_slice_safety_witness :
    goLastChunk "" = none ∧
    (buildModelsURL "http://u").isSome = true :=
  ⟨(url_slice_safety "http://u" (by decide) (fun _ => "")
      { address := "", port := "", llamaStackEndpoint := "",
        llamaStackAPIKey := "", enableAuth := true, logLevel := "",
        logJSON := false }).1,
   (url_slice_safety "http://u" (by decide) (fun _ => "")
      { address := "", port := "", llamaStackEndpoint := "",
        llamaStackAPIKey := "", enableAuth := true, logLevel := "",
        logJSON := false }).2.1⟩

end LlamaAdapter
